import Mathlib

/-!
Verification of the gmail-mcp repository's authenticated dispatch core.

The development shallowly embeds the two load-bearing pieces of the
repository:

* `with_oauth_retry` (src/src/_client.py, lines 49-64): a higher-order
  wrapper that runs a unit of work once, and on an authentication error
  carrying a `connect_url` re-authorization URL drives a human-in-the-loop
  prompt and retries the unit of work exactly once more.
* `_req` (src/src/gmail.py, lines 40-48): the shared helper every Gmail
  tool uses to turn a dispatch outcome into a single text payload, plus
  the per-tool request builders and tool metadata (readOnlyHint).

Python dictionaries/JSON values are modelled by the inductive `Json`;
Python truthiness by `truthy`; a raised Python exception by `PyError`.
The unit of work given to `with_oauth_retry` is modelled as a map from
invocation index to outcome, and the wrapper's observable behaviour
(invocation count, printed URLs, browser-opened URLs, blocking operator
confirmations, returned value or propagated exception) is collected in a
`RunTrace`.
-/

/-- Model of a Python/JSON value as it appears in error payloads and
response bodies (`e.body`, `resp.response.body`). -/
inductive Json where
  | null : Json
  | bool : Bool → Json
  | num : Int → Json
  | str : String → Json
  | arr : List Json → Json
  | obj : List (String × Json) → Json

/-- Python truthiness of a `Json` value: `None`, `False`, `0`, `""`, `[]`
and `\x7b\x7d` are falsy, everything else is truthy. -/
def truthy : Json → Bool
  | Json.null => false
  | Json.bool b => b
  | Json.num n => n != 0
  | Json.str s => s != ""
  | Json.arr xs => !xs.isEmpty
  | Json.obj fs => !fs.isEmpty

/-- Python `e.body if isinstance(e.body, dict) else \x7b\x7d`
(src/src/_client.py line 55): keep a dict, replace anything else by the
empty dict. -/
def asDict : Json → List (String × Json)
  | Json.obj fs => fs
  | _ => []

/-- Python `d.get(k)`: the stored value, or `None` when the key is absent. -/
def dictGet (d : List (String × Json)) (k : String) : Json :=
  (d.lookup k).getD Json.null

/-- A raised Python exception, as far as the wrapper can distinguish them:
an `AuthenticationError` carrying its `body` attribute, the
`AttributeError` the extraction line can itself raise, or any other
exception.  -/
inductive PyError where
  | authentication : Json → PyError
  | attributeError : PyError
  | other : String → PyError

/-- Outcome of one invocation of the unit of work: a returned value or a
raised exception. -/
inductive CallOutcome (T : Type) where
  | ok : T → CallOutcome T
  | err : PyError → CallOutcome T

/-- How `with_oauth_retry` finishes: returning a value or letting an
exception propagate to its caller. -/
inductive RetryResult (T : Type) where
  | value : T → RetryResult T
  | raised : PyError → RetryResult T

/-- Observable behaviour of one run of `with_oauth_retry`: how many times
the unit of work was invoked, which URLs were printed as plain text,
which URLs were passed to `webbrowser.open`, how many blocking
`input(...)` operator confirmations happened, and the final outcome. -/
structure RunTrace (T : Type) where
  calls : Nat
  printed : List Json
  opened : List Json
  confirms : Nat
  outcome : RetryResult T

/-- Python `body.get("connect_url") or body.get("detail", \x7b\x7d).get("connect_url")`
followed by the `if not url` test (src/src/_client.py lines 56-58):
returns `some url` when a truthy URL was extracted, `none` when the
original error must be re-raised, and an `AttributeError` when the
`detail` value is present but is not a dict (so has no `.get`). -/
def connect_url_of (body : List (String × Json)) : Except PyError (Option Json) :=
  let top := dictGet body "connect_url"
  if truthy top then Except.ok (some top)
  else
    match (body.lookup "detail").getD (Json.obj []) with
    | Json.obj fs =>
        let nested := dictGet fs "connect_url"
        if truthy nested then Except.ok (some nested) else Except.ok none
    | _ => Except.error PyError.attributeError

/-- Direct translation of `with_oauth_retry` (src/src/_client.py lines
49-64). The unit of work `fn` is modelled by its outcome at each
invocation index; the wrapper invokes `fn 0`, and `fn 1` only on the
single retry. On the prompt branch the code prints the URL, opens it in
the browser, and blocks on one `input(...)` confirmation before
retrying. -/
def with_oauth_retry {T : Type} (fn : Nat → CallOutcome T) : RunTrace T :=
  match fn 0 with
  | CallOutcome.ok v => ⟨1, [], [], 0, RetryResult.value v⟩
  | CallOutcome.err (PyError.authentication ebody) =>
      let body := asDict ebody
      match connect_url_of body with
      | Except.error e => ⟨1, [], [], 0, RetryResult.raised e⟩
      | Except.ok none => ⟨1, [], [], 0, RetryResult.raised (PyError.authentication ebody)⟩
      | Except.ok (some url) =>
          match fn 1 with
          | CallOutcome.ok v => ⟨2, [url], [url], 1, RetryResult.value v⟩
          | CallOutcome.err e2 => ⟨2, [url], [url], 1, RetryResult.raised e2⟩
  | CallOutcome.err e => ⟨1, [], [], 0, RetryResult.raised e⟩

example :
    with_oauth_retry (fun _ => CallOutcome.ok (42 : Nat)) =
      ⟨1, [], [], 0, RetryResult.value 42⟩ := rfl

example :
    with_oauth_retry (T := Nat) (fun n =>
      if n = 0 then
        CallOutcome.err (PyError.authentication
          (Json.obj [("connect_url", Json.str "https://x")]))
      else CallOutcome.ok 7) =
      ⟨2, [Json.str "https://x"], [Json.str "https://x"], 1, RetryResult.value 7⟩ := rfl

example :
    with_oauth_retry (T := Nat) (fun _ =>
      CallOutcome.err (PyError.authentication
        (Json.obj [("detail", Json.str "oops")]))) =
      ⟨1, [], [], 0, RetryResult.raised PyError.attributeError⟩ := rfl

/-- JSON escaping of one character as performed by Python's `json.dumps`
for the characters that occur in practice (quote, backslash, and common
control characters). -/
def jsonEscapeChar (c : Char) : String :=
  if c = '"' then "\\\""
  else if c = '\\' then "\\\\"
  else if c = '\n' then "\\n"
  else if c = '\t' then "\\t"
  else if c = '\r' then "\\r"
  else String.singleton c

/-- JSON string escaping as performed by Python's `json.dumps`,
character by character. -/
def jsonEscape (s : String) : String :=
  String.join (s.data.map jsonEscapeChar)

/-- Indentation produced by `json.dumps(..., indent=2)` at nesting level
`lvl`: two spaces per level. -/
def jsonIndent (lvl : Nat) : String :=
  String.join (List.replicate lvl "  ")

mutual

/-- Model of Python `json.dumps(v, indent=2)` at nesting level `lvl`:
scalars on one line, empty containers as `\x7b\x7d` / `[]`, non-empty
containers spread over indented lines. -/
def dumpsAux : Nat → Json → String
  | _, Json.null => "null"
  | _, Json.bool b => cond b "true" "false"
  | _, Json.num n => toString n
  | _, Json.str s => "\"" ++ jsonEscape s ++ "\""
  | _, Json.arr [] => "[]"
  | lvl, Json.arr (x :: xs) =>
      "[\n" ++ jsonIndent (lvl + 1) ++ dumpsAux (lvl + 1) x ++
        dumpsItems (lvl + 1) xs ++ "\n" ++ jsonIndent lvl ++ "]"
  | _, Json.obj [] => "\x7b\x7d"
  | lvl, Json.obj ((k, v) :: fs) =>
      "\x7b\n" ++ jsonIndent (lvl + 1) ++ "\"" ++ jsonEscape k ++ "\": " ++
        dumpsAux (lvl + 1) v ++ dumpsFields (lvl + 1) fs ++ "\n" ++
        jsonIndent lvl ++ "\x7d"

/-- Remaining array items, each preceded by a comma, newline and indent. -/
def dumpsItems : Nat → List Json → String
  | _, [] => ""
  | lvl, x :: xs => ",\n" ++ jsonIndent lvl ++ dumpsAux lvl x ++ dumpsItems lvl xs

/-- Remaining object fields, each preceded by a comma, newline and indent. -/
def dumpsFields : Nat → List (String × Json) → String
  | _, [] => ""
  | lvl, (k, v) :: fs =>
      ",\n" ++ jsonIndent lvl ++ "\"" ++ jsonEscape k ++ "\": " ++
        dumpsAux lvl v ++ dumpsFields lvl fs

end

/-- Python `json.dumps(v, indent=2)` as called by `_req`. -/
def dumps (v : Json) : String := dumpsAux 0 v

example : dumps (Json.obj []) = "\x7b\x7d" := rfl

example :
    dumps (Json.obj [("error", Json.str "Request failed")]) =
      "\x7b\n  \"error\": \"Request failed\"\n\x7d" := rfl

example :
    dumps (Json.obj [("messages", Json.arr [Json.obj [("id", Json.str "1")]])]) =
      "\x7b\n  \"messages\": [\n    \x7b\n      \"id\": \"1\"\n    \x7d\n  ]\n\x7d" := rfl

/-- The MCP `TextContent` payload constructed by `_req`: a content type
tag (always `"text"`) and the text itself. -/
structure TextContent where
  type : String
  text : String

/-- The structured error attached to a failed dispatch outcome
(`resp.error`), of which `_req` reads only the message. -/
structure DispatchError where
  message : String

/-- The upstream response attached to a successful dispatch outcome
(`resp.response`), of which `_req` reads only the parsed JSON body
(`Json.null` models an absent body). -/
structure HttpResponse where
  body : Json

/-- The normalized outcome the Dispatch Context returns from
`ctx.dispatch` (`resp` in `_req`): a success flag, the response, and an
optional error object. -/
structure DispatchResult where
  success : Bool
  response : HttpResponse
  error : Option DispatchError

/-- Direct translation of the result-rendering of `_req`
(src/src/gmail.py lines 40-48): on success serialize
`resp.response.body or \x7b\x7d`, otherwise serialize an error envelope
whose message is `resp.error.message` when an error object is present
and `"Request failed"` otherwise; always exactly one `TextContent`. -/
def _req (resp : DispatchResult) : List TextContent :=
  if resp.success then
    let data := if truthy resp.response.body then resp.response.body else Json.obj []
    [⟨"text", dumps data⟩]
  else
    let error :=
      match resp.error with
      | some e => e.message
      | none => "Request failed"
    [⟨"text", dumps (Json.obj [("error", Json.str error)])⟩]

example :
    _req ⟨true, ⟨Json.null⟩, none⟩ = [⟨"text", "\x7b\x7d"⟩] := rfl

example :
    _req ⟨false, ⟨Json.null⟩, some ⟨"boom"⟩⟩ =
      [⟨"text", "\x7b\n  \"error\": \"boom\"\n\x7d"⟩] := rfl

example :
    _req ⟨false, ⟨Json.null⟩, none⟩ =
      [⟨"text", "\x7b\n  \"error\": \"Request failed\"\n\x7d"⟩] := rfl

/-- The HTTP methods of the framework's `HttpMethod` enum that gmail.py
uses. -/
inductive HttpMethod where
  | GET : HttpMethod
  | POST : HttpMethod
  | PUT : HttpMethod
  | PATCH : HttpMethod
  | DELETE : HttpMethod
deriving DecidableEq

/-- The `HttpRequest` envelope a tool handler passes to `ctx.dispatch`:
method, path relative to the connection's base URL, and optional JSON
body. -/
structure HttpRequest where
  method : HttpMethod
  path : String
  body : Option Json

/-- The `SecretKeys` declaration: the environment-variable name holding
the access token. -/
structure SecretKeys where
  token : String

/-- A `Connection` declaration (src/src/gmail.py lines 26-31). -/
structure Connection where
  name : String
  secrets : SecretKeys
  base_url : String
  auth_header_format : String

/-- The single registered connection of the server. -/
def gmail : Connection :=
  ⟨"gmail", ⟨"GMAIL_ACCESS_TOKEN"⟩, "https://gmail.googleapis.com",
   "Bearer \x7bapi_key\x7d"⟩

/-- Translation of `_create_message` (src/src/gmail.py lines 51-61): the
MIME serialization and base64url encoding are performed by Python's
standard library (external collaborators), modelled here as a tagged
record of the header fields and body; the `cc`/`bcc` headers are
attached only when the argument is non-empty, as in the source. No
claim depends on the concrete encoding, only on which request carries
it. -/
def _create_message (to_addr subject body cc bcc : String) : String :=
  "to=" ++ to_addr ++ ";subject=" ++ subject ++
    (if cc != "" then ";cc=" ++ cc else "") ++
    (if bcc != "" then ";bcc=" ++ bcc else "") ++
    ";body=" ++ body

/-- Splitting of a character list at every occurrence of `sep`, keeping
empty pieces, as Python's `str.split(sep)` does. -/
def splitChars (sep : Char) : List Char → List (List Char)
  | [] => [[]]
  | c :: cs =>
      match splitChars sep cs with
      | [] => if c = sep then [[], []] else [[c]]
      | p :: ps => if c = sep then [] :: p :: ps else (c :: p) :: ps

/-- Model of Python `s.split(sep)` for a one-character separator. -/
def pySplit (s : String) (sep : Char) : List String :=
  (splitChars sep s.data).map (fun cs => String.mk cs)

/-- Model of Python `s.strip()`: remove leading and trailing
whitespace. -/
def pyStrip (s : String) : String :=
  String.mk (((s.data.dropWhile Char.isWhitespace).reverse.dropWhile
    Char.isWhitespace).reverse)

example : pySplit "INBOX, STARRED" ',' = ["INBOX", " STARRED"] := rfl

example : pyStrip " STARRED" = "STARRED" := rfl

/-- Tool metadata registered with the `tool` decorator: name, tags, and
the `ToolAnnotations.readOnlyHint` flag (descriptions are prose not
referenced by any claim). -/
structure ToolMeta where
  name : String
  tags : List String
  readOnlyHint : Bool

def gmail_list_messages_meta : ToolMeta :=
  ⟨"gmail_list_messages", ["message", "read"], true⟩

/-- Request built by `gmail_list_messages` (src/src/gmail.py lines
74-91). -/
def gmail_list_messages_request (query : String) (max_results : Int)
    (label_ids : String) (include_spam_trash : Bool) : HttpRequest :=
  let params := ["maxResults=" ++ toString max_results]
  let params := if query != "" then params ++ ["q=" ++ query] else params
  let params :=
    if label_ids != "" then
      params ++ (pySplit label_ids ',').map (fun label => "labelIds=" ++ pyStrip label)
    else params
  let params := if include_spam_trash then params ++ ["includeSpamTrash=true"] else params
  ⟨HttpMethod.GET, "/gmail/v1/users/me/messages?" ++ String.intercalate "&" params, none⟩

def gmail_get_message_meta : ToolMeta :=
  ⟨"gmail_get_message", ["message", "read"], true⟩

/-- Request built by `gmail_get_message`. -/
def gmail_get_message_request (message_id format : String) : HttpRequest :=
  ⟨HttpMethod.GET, "/gmail/v1/users/me/messages/" ++ message_id ++ "?format=" ++ format, none⟩

def gmail_send_message_meta : ToolMeta :=
  ⟨"gmail_send_message", ["message", "write"], false⟩

/-- Request built by `gmail_send_message`. -/
def gmail_send_message_request (to_addr subject body cc bcc : String) : HttpRequest :=
  let raw := _create_message to_addr subject body cc bcc
  ⟨HttpMethod.POST, "/gmail/v1/users/me/messages/send", some (Json.obj [("raw", Json.str raw)])⟩

def gmail_trash_message_meta : ToolMeta :=
  ⟨"gmail_trash_message", ["message", "write"], false⟩

/-- Request built by `gmail_trash_message`. -/
def gmail_trash_message_request (message_id : String) : HttpRequest :=
  ⟨HttpMethod.POST, "/gmail/v1/users/me/messages/" ++ message_id ++ "/trash", none⟩

def gmail_untrash_message_meta : ToolMeta :=
  ⟨"gmail_untrash_message", ["message", "write"], false⟩

/-- Request built by `gmail_untrash_message`. -/
def gmail_untrash_message_request (message_id : String) : HttpRequest :=
  ⟨HttpMethod.POST, "/gmail/v1/users/me/messages/" ++ message_id ++ "/untrash", none⟩

def gmail_modify_message_meta : ToolMeta :=
  ⟨"gmail_modify_message", ["message", "write"], false⟩

/-- Request built by `gmail_modify_message` (src/src/gmail.py lines
149-160): label-id lists attached only when the argument is
non-empty. -/
def gmail_modify_message_request (message_id add_label_ids remove_label_ids : String) :
    HttpRequest :=
  let body : List (String × Json) := []
  let body :=
    if add_label_ids != "" then
      body ++ [("addLabelIds",
        Json.arr ((pySplit add_label_ids ',').map (fun l => Json.str (pyStrip l))))]
    else body
  let body :=
    if remove_label_ids != "" then
      body ++ [("removeLabelIds",
        Json.arr ((pySplit remove_label_ids ',').map (fun l => Json.str (pyStrip l))))]
    else body
  ⟨HttpMethod.POST, "/gmail/v1/users/me/messages/" ++ message_id ++ "/modify",
   some (Json.obj body)⟩

def gmail_list_threads_meta : ToolMeta :=
  ⟨"gmail_list_threads", ["thread", "read"], true⟩

/-- Request built by `gmail_list_threads`. -/
def gmail_list_threads_request (query : String) (max_results : Int)
    (label_ids : String) : HttpRequest :=
  let params := ["maxResults=" ++ toString max_results]
  let params := if query != "" then params ++ ["q=" ++ query] else params
  let params :=
    if label_ids != "" then
      params ++ (pySplit label_ids ',').map (fun label => "labelIds=" ++ pyStrip label)
    else params
  ⟨HttpMethod.GET, "/gmail/v1/users/me/threads?" ++ String.intercalate "&" params, none⟩

def gmail_get_thread_meta : ToolMeta :=
  ⟨"gmail_get_thread", ["thread", "read"], true⟩

/-- Request built by `gmail_get_thread`. -/
def gmail_get_thread_request (thread_id format : String) : HttpRequest :=
  ⟨HttpMethod.GET, "/gmail/v1/users/me/threads/" ++ thread_id ++ "?format=" ++ format, none⟩

def gmail_trash_thread_meta : ToolMeta :=
  ⟨"gmail_trash_thread", ["thread", "write"], false⟩

/-- Request built by `gmail_trash_thread`. -/
def gmail_trash_thread_request (thread_id : String) : HttpRequest :=
  ⟨HttpMethod.POST, "/gmail/v1/users/me/threads/" ++ thread_id ++ "/trash", none⟩

def gmail_list_labels_meta : ToolMeta :=
  ⟨"gmail_list_labels", ["label", "read"], true⟩

/-- Request built by `gmail_list_labels`. -/
def gmail_list_labels_request : HttpRequest :=
  ⟨HttpMethod.GET, "/gmail/v1/users/me/labels", none⟩

def gmail_get_label_meta : ToolMeta :=
  ⟨"gmail_get_label", ["label", "read"], true⟩

/-- Request built by `gmail_get_label`. -/
def gmail_get_label_request (label_id : String) : HttpRequest :=
  ⟨HttpMethod.GET, "/gmail/v1/users/me/labels/" ++ label_id, none⟩

def gmail_create_label_meta : ToolMeta :=
  ⟨"gmail_create_label", ["label", "write"], false⟩

/-- Request built by `gmail_create_label`. -/
def gmail_create_label_request (name label_list_visibility message_list_visibility : String) :
    HttpRequest :=
  ⟨HttpMethod.POST, "/gmail/v1/users/me/labels",
   some (Json.obj
     [("name", Json.str name),
      ("labelListVisibility", Json.str label_list_visibility),
      ("messageListVisibility", Json.str message_list_visibility)])⟩

def gmail_delete_label_meta : ToolMeta :=
  ⟨"gmail_delete_label", ["label", "write"], false⟩

/-- Request built by `gmail_delete_label`. -/
def gmail_delete_label_request (label_id : String) : HttpRequest :=
  ⟨HttpMethod.DELETE, "/gmail/v1/users/me/labels/" ++ label_id, none⟩

def gmail_list_drafts_meta : ToolMeta :=
  ⟨"gmail_list_drafts", ["draft", "read"], true⟩

/-- Request built by `gmail_list_drafts`. -/
def gmail_list_drafts_request (max_results : Int) : HttpRequest :=
  ⟨HttpMethod.GET, "/gmail/v1/users/me/drafts?maxResults=" ++ toString max_results, none⟩

def gmail_get_draft_meta : ToolMeta :=
  ⟨"gmail_get_draft", ["draft", "read"], true⟩

/-- Request built by `gmail_get_draft`. -/
def gmail_get_draft_request (draft_id format : String) : HttpRequest :=
  ⟨HttpMethod.GET, "/gmail/v1/users/me/drafts/" ++ draft_id ++ "?format=" ++ format, none⟩

def gmail_create_draft_meta : ToolMeta :=
  ⟨"gmail_create_draft", ["draft", "write"], false⟩

/-- Request built by `gmail_create_draft`. -/
def gmail_create_draft_request (to_addr subject body cc bcc : String) : HttpRequest :=
  let raw := _create_message to_addr subject body cc bcc
  ⟨HttpMethod.POST, "/gmail/v1/users/me/drafts",
   some (Json.obj [("message", Json.obj [("raw", Json.str raw)])])⟩

def gmail_send_draft_meta : ToolMeta :=
  ⟨"gmail_send_draft", ["draft", "write"], false⟩

/-- Request built by `gmail_send_draft`. -/
def gmail_send_draft_request (draft_id : String) : HttpRequest :=
  ⟨HttpMethod.POST, "/gmail/v1/users/me/drafts/send", some (Json.obj [("id", Json.str draft_id)])⟩

def gmail_delete_draft_meta : ToolMeta :=
  ⟨"gmail_delete_draft", ["draft", "write"], false⟩

/-- Request built by `gmail_delete_draft`. -/
def gmail_delete_draft_request (draft_id : String) : HttpRequest :=
  ⟨HttpMethod.DELETE, "/gmail/v1/users/me/drafts/" ++ draft_id, none⟩

def gmail_get_profile_meta : ToolMeta :=
  ⟨"gmail_get_profile", ["profile", "read"], true⟩

/-- Request built by `gmail_get_profile`. -/
def gmail_get_profile_request : HttpRequest :=
  ⟨HttpMethod.GET, "/gmail/v1/users/me/profile", none⟩

/-- The exported `gmail_tools` catalog (src/src/gmail.py lines 348-373),
in source order. -/
def gmail_tools : List ToolMeta :=
  [gmail_list_messages_meta, gmail_get_message_meta, gmail_send_message_meta,
   gmail_trash_message_meta, gmail_untrash_message_meta, gmail_modify_message_meta,
   gmail_list_threads_meta, gmail_get_thread_meta, gmail_trash_thread_meta,
   gmail_list_labels_meta, gmail_get_label_meta, gmail_create_label_meta,
   gmail_delete_label_meta, gmail_list_drafts_meta, gmail_get_draft_meta,
   gmail_create_draft_meta, gmail_send_draft_meta, gmail_delete_draft_meta,
   gmail_get_profile_meta]

example :
    gmail_list_messages_request "is:unread" 10 "INBOX, STARRED" true =
      ⟨HttpMethod.GET,
       "/gmail/v1/users/me/messages?maxResults=10&q=is:unread&labelIds=INBOX&labelIds=STARRED&includeSpamTrash=true",
       none⟩ := rfl

example : gmail_tools.length = 19 := rfl

/-- Extraction from the empty payload finds nothing actionable. -/
theorem connect_url_of_nil : connect_url_of [] = Except.ok none := rfl

/-- On a non-dict `e.body` the wrapper works with the empty dict. -/
theorem asDict_non_obj (b : Json) (h : ∀ fs, b ≠ Json.obj fs) : asDict b = [] := by
  cases b <;> first | rfl | exact absurd rfl (h _)

/-- A truthy top-level `connect_url` is extracted, and the `detail`
field is never consulted. -/
theorem connect_url_of_top (body : List (String × Json)) (t : Json)
    (ht : body.lookup "connect_url" = some t) (htr : truthy t = true) :
    connect_url_of body = Except.ok (some t) := by
  unfold connect_url_of dictGet
  rw [ht]
  simp [htr]

/-- Claim C6: for every unit of work that succeeds on its first
invocation, `with_oauth_retry` invokes it exactly once, returns its
value unchanged, and never prompts the operator (nothing printed,
no browser opened, no blocking confirmation). -/
theorem with_oauth_retry_success_once {T : Type} (fn : Nat → CallOutcome T) (v : T)
    (h0 : fn 0 = CallOutcome.ok v) :
    with_oauth_retry fn = ⟨1, [], [], 0, RetryResult.value v⟩ := by
  unfold with_oauth_retry
  rw [h0]

/-- Witness for claim C6 at a unit of work that always returns 42. -/
theorem with_oauth_retry_success_once_witness :
    with_oauth_retry (fun _ => CallOutcome.ok (42 : Nat)) =
      ⟨1, [], [], 0, RetryResult.value 42⟩ :=
  with_oauth_retry_success_once _ 42 rfl

/-- Claim C4: for every unit of work whose first invocation raises an
error that is not an authentication error, `with_oauth_retry`
propagates that error unchanged, does not prompt the operator, and does
not invoke the unit of work a second time. -/
theorem with_oauth_retry_non_auth_error_propagates {T : Type}
    (fn : Nat → CallOutcome T) (e : PyError)
    (h0 : fn 0 = CallOutcome.err e)
    (hna : ∀ b, e ≠ PyError.authentication b) :
    with_oauth_retry fn = ⟨1, [], [], 0, RetryResult.raised e⟩ := by
  unfold with_oauth_retry
  rw [h0]
  cases e with
  | authentication b => exact absurd rfl (hna b)
  | attributeError => rfl
  | other s => rfl

/-- Witness for claim C4 at a unit of work that raises a `ValueError`. -/
theorem with_oauth_retry_non_auth_error_propagates_witness :
    with_oauth_retry (T := Nat) (fun _ => CallOutcome.err (PyError.other "ValueError")) =
      ⟨1, [], [], 0, RetryResult.raised (PyError.other "ValueError")⟩ :=
  with_oauth_retry_non_auth_error_propagates _ _ rfl
    (fun _ h => PyError.noConfusion h)

/-- Claim C9: for every authentication error whose `body` attribute is
not a dict at all (for example `None` or a plain string),
`with_oauth_retry` treats the payload as empty, propagates the original
error unchanged, and never prompts the operator. -/
theorem with_oauth_retry_non_dict_body_propagates {T : Type}
    (fn : Nat → CallOutcome T) (b : Json)
    (h0 : fn 0 = CallOutcome.err (PyError.authentication b))
    (hb : ∀ fs, b ≠ Json.obj fs) :
    with_oauth_retry fn = ⟨1, [], [], 0, RetryResult.raised (PyError.authentication b)⟩ := by
  simp only [with_oauth_retry, h0, asDict_non_obj b hb, connect_url_of_nil]

/-- Witness for claim C9 at an authentication error with `body = None`. -/
theorem with_oauth_retry_non_dict_body_propagates_witness :
    with_oauth_retry (T := Nat) (fun _ => CallOutcome.err (PyError.authentication Json.null)) =
      ⟨1, [], [], 0, RetryResult.raised (PyError.authentication Json.null)⟩ :=
  with_oauth_retry_non_dict_body_propagates _ _ rfl
    (fun _ h => Json.noConfusion h)

/-- Claim C2 counterexample: the claim quantifies over every payload
with no `connect_url` anywhere, explicitly including a `detail` field
that is present but not an object. At the concrete payload
`\x7b"detail": "oops"\x7d` the wrapper does not propagate the original
authentication error: the extraction line calls `.get` on the string
`"oops"` and raises an `AttributeError` instead (it still never prompts
the operator). -/
theorem with_oauth_retry_nondict_detail_counterexample :
    with_oauth_retry (T := Nat) (fun _ =>
        CallOutcome.err (PyError.authentication
          (Json.obj [("detail", Json.str "oops")]))) =
      ⟨1, [], [], 0, RetryResult.raised PyError.attributeError⟩ ∧
    RetryResult.raised (T := Nat) PyError.attributeError ≠
      RetryResult.raised (PyError.authentication
        (Json.obj [("detail", Json.str "oops")])) :=
  ⟨rfl, by simp⟩

/-- Claim C2, amended: for every unit of work raising an authentication
error whose payload has no truthy `connect_url` at the top level, (a) if
the `detail` field is absent or is an object without a truthy
`connect_url`, `with_oauth_retry` propagates the original error
unchanged and never prompts the operator; (b) if the `detail` field is
present but is not an object, the wrapper raises an `AttributeError`
instead of the original error, still without prompting the operator. -/
theorem with_oauth_retry_no_connect_url_amended {T : Type}
    (fn : Nat → CallOutcome T) (b : Json)
    (h0 : fn 0 = CallOutcome.err (PyError.authentication b))
    (htop : truthy (dictGet (asDict b) "connect_url") = false) :
    ((∀ d, (asDict b).lookup "detail" = some d →
        ∃ fs, d = Json.obj fs ∧ truthy (dictGet fs "connect_url") = false) →
      with_oauth_retry fn =
        ⟨1, [], [], 0, RetryResult.raised (PyError.authentication b)⟩) ∧
    ((∃ d, (asDict b).lookup "detail" = some d ∧ ∀ fs, d ≠ Json.obj fs) →
      with_oauth_retry fn =
        ⟨1, [], [], 0, RetryResult.raised PyError.attributeError⟩) := by
  constructor
  · intro hdet
    have hcu : connect_url_of (asDict b) = Except.ok none := by
      unfold connect_url_of
      rw [if_neg (by rw [htop]; exact Bool.false_ne_true)]
      cases hd : (asDict b).lookup "detail" with
      | none => simp [dictGet, truthy]
      | some d =>
          obtain ⟨fs, rfl, hfs⟩ := hdet d hd
          simp [hfs]
    simp only [with_oauth_retry, h0, hcu]
  · intro ⟨d, hd, hnd⟩
    have hcu : connect_url_of (asDict b) = Except.error PyError.attributeError := by
      unfold connect_url_of
      rw [if_neg (by rw [htop]; exact Bool.false_ne_true)]
      rw [hd]
      cases d with
      | obj fs => exact absurd rfl (hnd fs)
      | null => rfl
      | bool x => rfl
      | num x => rfl
      | str x => rfl
      | arr x => rfl
    simp only [with_oauth_retry, h0, hcu]

/-- Witness for the amended claim C2 at the payload
`\x7b"detail": \x7b"x": 1\x7d\x7d`: no `connect_url` anywhere and an
object-valued `detail`, so the original error propagates without any
prompt. -/
theorem with_oauth_retry_no_connect_url_amended_witness :
    with_oauth_retry (T := Nat) (fun _ =>
        CallOutcome.err (PyError.authentication
          (Json.obj [("detail", Json.obj [("x", Json.num 1)])]))) =
      ⟨1, [], [], 0, RetryResult.raised (PyError.authentication
        (Json.obj [("detail", Json.obj [("x", Json.num 1)])]))⟩ :=
  (with_oauth_retry_no_connect_url_amended
    (fun _ =>
      CallOutcome.err (PyError.authentication
        (Json.obj [("detail", Json.obj [("x", Json.num 1)])])))
    (Json.obj [("detail", Json.obj [("x", Json.num 1)])]) rfl rfl).1 (by
    intro d hd
    refine ⟨[("x", Json.num 1)], ?_, rfl⟩
    have : some (Json.obj [("x", Json.num 1)]) = some d := hd
    exact (Option.some.injEq _ _ ▸ this).symm)

/-- Claim C1: for every unit of work that raises on its first invocation
an authentication error whose body carries a top-level `connect_url`
URL, and succeeds on its second invocation, `with_oauth_retry` presents
the URL to the operator (prints it and passes it to `webbrowser.open`),
blocks on exactly one operator confirmation, invokes the unit of work
exactly one more time, and returns the second invocation's result. -/
theorem with_oauth_retry_top_level_connect_url {T : Type}
    (fn : Nat → CallOutcome T) (body : List (String × Json)) (u : String) (v : T)
    (h0 : fn 0 = CallOutcome.err (PyError.authentication (Json.obj body)))
    (hu : body.lookup "connect_url" = some (Json.str u))
    (hne : u ≠ "")
    (h1 : fn 1 = CallOutcome.ok v) :
    with_oauth_retry fn = ⟨2, [Json.str u], [Json.str u], 1, RetryResult.value v⟩ := by
  have htr : truthy (Json.str u) = true := by simp [truthy, hne]
  simp only [with_oauth_retry, h0, asDict,
    connect_url_of_top body (Json.str u) hu htr, h1]

/-- Witness for claim C1: first call fails with
`\x7b"connect_url": "https://x"\x7d`, second call returns 7. -/
theorem with_oauth_retry_top_level_connect_url_witness :
    with_oauth_retry (T := Nat) (fun n =>
      if n = 0 then
        CallOutcome.err (PyError.authentication
          (Json.obj [("connect_url", Json.str "https://x")]))
      else CallOutcome.ok 7) =
      ⟨2, [Json.str "https://x"], [Json.str "https://x"], 1, RetryResult.value 7⟩ :=
  with_oauth_retry_top_level_connect_url _ _ "https://x" 7 rfl rfl (by decide) rfl

/-- Claim C3: for every unit of work, `with_oauth_retry` invokes it at
most twice and blocks on at most one operator confirmation; and if the
retried second invocation fails (with any error, another authentication
error included), that failure propagates to the caller after the single
confirmation, with no further prompt or retry. -/
theorem with_oauth_retry_at_most_two_calls {T : Type} (fn : Nat → CallOutcome T) :
    (with_oauth_retry fn).calls ≤ 2 ∧ (with_oauth_retry fn).confirms ≤ 1 ∧
    (∀ e, fn 1 = CallOutcome.err e → (with_oauth_retry fn).calls = 2 →
      (with_oauth_retry fn).outcome = RetryResult.raised e ∧
      (with_oauth_retry fn).confirms = 1) := by
  unfold with_oauth_retry
  cases h0 : fn 0 with
  | ok v => simp
  | err e =>
    cases e with
    | authentication b =>
      cases hc : connect_url_of (asDict b) with
      | error e' => simp [hc]
      | ok o =>
        cases o with
        | none => simp [hc]
        | some url =>
          cases h1 : fn 1 with
          | ok v => simp [hc, h1]
          | err e2 =>
            simp only [hc, h1]
            refine ⟨by norm_num, by norm_num, ?_⟩
            intro e he _
            obtain rfl : e2 = e := by injection he
            exact ⟨rfl, by trivial⟩
    | attributeError => simp
    | other s => simp

/-- Witness for claim C3: both invocations fail; the second failure is
what propagates, after one confirmation. -/
theorem with_oauth_retry_at_most_two_calls_witness :
    (with_oauth_retry (T := Nat) (fun n =>
        if n = 0 then
          CallOutcome.err (PyError.authentication
            (Json.obj [("connect_url", Json.str "https://x")]))
        else CallOutcome.err (PyError.other "boom"))).outcome =
      RetryResult.raised (PyError.other "boom") ∧
    (with_oauth_retry (T := Nat) (fun n =>
        if n = 0 then
          CallOutcome.err (PyError.authentication
            (Json.obj [("connect_url", Json.str "https://x")]))
        else CallOutcome.err (PyError.other "boom"))).confirms = 1 :=
  (with_oauth_retry_at_most_two_calls _).2.2 (PyError.other "boom") rfl rfl

/-- Claim C5: for every authentication error whose body is
`\x7b"detail": \x7b"connect_url": u\x7d\x7d` with no top-level
`connect_url`, `with_oauth_retry` extracts the nested URL `u` and
proceeds (prompt, confirmation, single retry) exactly as it would for a
top-level `connect_url` equal to `u`; and the top-level field is checked
before the nested one (a truthy top-level value is extracted without
consulting `detail`). -/
theorem with_oauth_retry_nested_connect_url {T : Type}
    (fn : Nat → CallOutcome T) (body inner : List (String × Json)) (u : String)
    (h0 : fn 0 = CallOutcome.err (PyError.authentication (Json.obj body)))
    (htop : body.lookup "connect_url" = none)
    (hd : body.lookup "detail" = some (Json.obj inner))
    (hn : inner.lookup "connect_url" = some (Json.str u))
    (hu : u ≠ "") :
    with_oauth_retry fn =
      with_oauth_retry (fun n =>
        if n = 0 then
          CallOutcome.err (PyError.authentication
            (Json.obj [("connect_url", Json.str u)]))
        else fn n) ∧
    (with_oauth_retry fn).printed = [Json.str u] ∧
    (with_oauth_retry fn).opened = [Json.str u] ∧
    (with_oauth_retry fn).confirms = 1 ∧
    (with_oauth_retry fn).calls = 2 ∧
    (∀ (body2 : List (String × Json)) (t : Json),
      body2.lookup "connect_url" = some t → truthy t = true →
      connect_url_of body2 = Except.ok (some t)) := by
  have htr : truthy (Json.str u) = true := by simp [truthy, hu]
  have hcu : connect_url_of body = Except.ok (some (Json.str u)) := by
    unfold connect_url_of dictGet
    rw [htop, hd]
    simp [truthy, hn, hu]
  have hcu' : connect_url_of [("connect_url", Json.str u)] =
      Except.ok (some (Json.str u)) :=
    connect_url_of_top _ _ rfl htr
  refine ⟨?_, ?_, ?_, ?_, ?_, fun body2 t ht htr2 => connect_url_of_top body2 t ht htr2⟩ <;>
    cases h1 : fn 1 <;>
      simp [with_oauth_retry, h0, asDict, hcu, hcu', h1]

/-- Witness for claim C5: the nested URL case behaves exactly as the
top-level one on the same continuation. -/
theorem with_oauth_retry_nested_connect_url_witness :
    with_oauth_retry (T := Nat) (fun n =>
      if n = 0 then
        CallOutcome.err (PyError.authentication
          (Json.obj [("detail", Json.obj [("connect_url", Json.str "https://y")])]))
      else CallOutcome.ok 3) =
    with_oauth_retry (T := Nat) (fun n =>
      if n = 0 then
        CallOutcome.err (PyError.authentication
          (Json.obj [("connect_url", Json.str "https://y")]))
      else
        if n = 0 then
          CallOutcome.err (PyError.authentication
            (Json.obj [("detail", Json.obj [("connect_url", Json.str "https://y")])]))
        else CallOutcome.ok 3) :=
  (with_oauth_retry_nested_connect_url
    (fun n =>
      if n = 0 then
        CallOutcome.err (PyError.authentication
          (Json.obj [("detail", Json.obj [("connect_url", Json.str "https://y")])]))
      else CallOutcome.ok 3)
    [("detail", Json.obj [("connect_url", Json.str "https://y")])]
    [("connect_url", Json.str "https://y")]
    "https://y" rfl rfl rfl rfl (by decide)).1

/-- The serialization of the empty JSON object is the two-brace string. -/
theorem dumps_empty_obj : dumps (Json.obj []) = "\x7b\x7d" := rfl

/-- Claim C7: for every dispatch outcome, the shared request helper
`_req` used by all Gmail tools returns exactly one single-element text
payload and never raises (it is a total function of the outcome): on
success the text is the pretty-printed JSON of the response body (with
a falsy body defaulted to the empty object, see claim C10), and on
failure the text is the pretty-printed JSON of an error envelope whose
message is the error object's message when one is present and
`"Request failed"` otherwise. Every tool handler returns `_req` applied
to its dispatch outcome, so the mapping is the same for every tool. -/
theorem req_uniform_single_text_payload (resp : DispatchResult) :
    ∃ s, _req resp = [⟨"text", s⟩] ∧
      (resp.success = true →
        s = dumps (if truthy resp.response.body then resp.response.body
                   else Json.obj [])) ∧
      (resp.success = false → ∀ e, resp.error = some e →
        s = dumps (Json.obj [("error", Json.str e.message)])) ∧
      (resp.success = false → resp.error = none →
        s = dumps (Json.obj [("error", Json.str "Request failed")])) := by
  cases hs : resp.success with
  | true =>
      refine ⟨dumps (if truthy resp.response.body then resp.response.body
        else Json.obj []), ?_, fun _ => rfl, ?_, ?_⟩
      · simp [_req, hs]
      · intro h; exact Bool.noConfusion h
      · intro h; exact Bool.noConfusion h
  | false =>
      cases he : resp.error with
      | some e =>
          refine ⟨dumps (Json.obj [("error", Json.str e.message)]), ?_, ?_, ?_, ?_⟩
          · simp [_req, hs, he]
          · intro h; exact Bool.noConfusion h
          · intro _ e2 he2
            obtain rfl : e = e2 := by injection he2
            rfl
          · intro _ hne; exact Option.noConfusion hne
      | none =>
          refine ⟨dumps (Json.obj [("error", Json.str "Request failed")]), ?_, ?_, ?_, ?_⟩
          · simp [_req, hs, he]
          · intro h; exact Bool.noConfusion h
          · intro _ e2 he2; exact Option.noConfusion he2
          · intro _ _; rfl

/-- Witness for claim C7 at the failed dispatch outcome with no error
object: the single payload carries the generic error envelope. -/
theorem req_uniform_single_text_payload_witness :
    ∃ s, _req ⟨false, ⟨Json.null⟩, none⟩ = [⟨"text", s⟩] ∧
      ((false : Bool) = true →
        s = dumps (if truthy Json.null then Json.null else Json.obj [])) ∧
      ((false : Bool) = false → ∀ e, (none : Option DispatchError) = some e →
        s = dumps (Json.obj [("error", Json.str e.message)])) ∧
      ((false : Bool) = false → (none : Option DispatchError) = none →
        s = dumps (Json.obj [("error", Json.str "Request failed")])) :=
  req_uniform_single_text_payload ⟨false, ⟨Json.null⟩, none⟩

/-- Claim C10: for every successful dispatch whose response body is
absent or falsy (`None`, empty object, empty string, ...), `_req`
renders the success text as the empty JSON object, not as `null` or the
literal falsy value. -/
theorem req_falsy_body_renders_empty_object (resp : DispatchResult)
    (hs : resp.success = true) (hb : truthy resp.response.body = false) :
    _req resp = [⟨"text", "\x7b\x7d"⟩] ∧ dumps Json.null = "null" := by
  constructor
  · simp [_req, hs, hb, dumps_empty_obj]
  · rfl

/-- Witness for claim C10 at a successful dispatch with `body = None`. -/
theorem req_falsy_body_renders_empty_object_witness :
    _req ⟨true, ⟨Json.null⟩, none⟩ = [⟨"text", "\x7b\x7d"⟩] ∧
      dumps Json.null = "null" :=
  req_falsy_body_renders_empty_object ⟨true, ⟨Json.null⟩, none⟩ rfl rfl

/-- Claim C8: the catalog of registered Gmail tools is exactly the 19
metas below, and for each one the `readOnlyHint` annotation accurately
reflects mutation: every tool annotated `readOnlyHint = true` dispatches
only GET requests (for every argument value), and every tool annotated
`readOnlyHint = false` dispatches a POST or DELETE request (for every
argument value); hence a tool is read-only annotated if and only if its
handler dispatches only GET requests. -/
theorem gmail_tools_readOnlyHint_matches_methods :
    gmail_tools =
      [gmail_list_messages_meta, gmail_get_message_meta, gmail_send_message_meta,
       gmail_trash_message_meta, gmail_untrash_message_meta, gmail_modify_message_meta,
       gmail_list_threads_meta, gmail_get_thread_meta, gmail_trash_thread_meta,
       gmail_list_labels_meta, gmail_get_label_meta, gmail_create_label_meta,
       gmail_delete_label_meta, gmail_list_drafts_meta, gmail_get_draft_meta,
       gmail_create_draft_meta, gmail_send_draft_meta, gmail_delete_draft_meta,
       gmail_get_profile_meta] ∧
    (gmail_list_messages_meta.readOnlyHint = true ∧
      ∀ q n l s, (gmail_list_messages_request q n l s).method = HttpMethod.GET) ∧
    (gmail_get_message_meta.readOnlyHint = true ∧
      ∀ m f, (gmail_get_message_request m f).method = HttpMethod.GET) ∧
    (gmail_send_message_meta.readOnlyHint = false ∧
      ∀ t su b c bc, (gmail_send_message_request t su b c bc).method = HttpMethod.POST ∨
        (gmail_send_message_request t su b c bc).method = HttpMethod.DELETE) ∧
    (gmail_trash_message_meta.readOnlyHint = false ∧
      ∀ m, (gmail_trash_message_request m).method = HttpMethod.POST ∨
        (gmail_trash_message_request m).method = HttpMethod.DELETE) ∧
    (gmail_untrash_message_meta.readOnlyHint = false ∧
      ∀ m, (gmail_untrash_message_request m).method = HttpMethod.POST ∨
        (gmail_untrash_message_request m).method = HttpMethod.DELETE) ∧
    (gmail_modify_message_meta.readOnlyHint = false ∧
      ∀ m a r, (gmail_modify_message_request m a r).method = HttpMethod.POST ∨
        (gmail_modify_message_request m a r).method = HttpMethod.DELETE) ∧
    (gmail_list_threads_meta.readOnlyHint = true ∧
      ∀ q n l, (gmail_list_threads_request q n l).method = HttpMethod.GET) ∧
    (gmail_get_thread_meta.readOnlyHint = true ∧
      ∀ t f, (gmail_get_thread_request t f).method = HttpMethod.GET) ∧
    (gmail_trash_thread_meta.readOnlyHint = false ∧
      ∀ t, (gmail_trash_thread_request t).method = HttpMethod.POST ∨
        (gmail_trash_thread_request t).method = HttpMethod.DELETE) ∧
    (gmail_list_labels_meta.readOnlyHint = true ∧
      gmail_list_labels_request.method = HttpMethod.GET) ∧
    (gmail_get_label_meta.readOnlyHint = true ∧
      ∀ l, (gmail_get_label_request l).method = HttpMethod.GET) ∧
    (gmail_create_label_meta.readOnlyHint = false ∧
      ∀ n lv mv, (gmail_create_label_request n lv mv).method = HttpMethod.POST ∨
        (gmail_create_label_request n lv mv).method = HttpMethod.DELETE) ∧
    (gmail_delete_label_meta.readOnlyHint = false ∧
      ∀ l, (gmail_delete_label_request l).method = HttpMethod.POST ∨
        (gmail_delete_label_request l).method = HttpMethod.DELETE) ∧
    (gmail_list_drafts_meta.readOnlyHint = true ∧
      ∀ n, (gmail_list_drafts_request n).method = HttpMethod.GET) ∧
    (gmail_get_draft_meta.readOnlyHint = true ∧
      ∀ d f, (gmail_get_draft_request d f).method = HttpMethod.GET) ∧
    (gmail_create_draft_meta.readOnlyHint = false ∧
      ∀ t su b c bc, (gmail_create_draft_request t su b c bc).method = HttpMethod.POST ∨
        (gmail_create_draft_request t su b c bc).method = HttpMethod.DELETE) ∧
    (gmail_send_draft_meta.readOnlyHint = false ∧
      ∀ d, (gmail_send_draft_request d).method = HttpMethod.POST ∨
        (gmail_send_draft_request d).method = HttpMethod.DELETE) ∧
    (gmail_delete_draft_meta.readOnlyHint = false ∧
      ∀ d, (gmail_delete_draft_request d).method = HttpMethod.POST ∨
        (gmail_delete_draft_request d).method = HttpMethod.DELETE) ∧
    (gmail_get_profile_meta.readOnlyHint = true ∧
      gmail_get_profile_request.method = HttpMethod.GET) :=
  ⟨rfl,
   ⟨rfl, fun _ _ _ _ => rfl⟩,
   ⟨rfl, fun _ _ => rfl⟩,
   ⟨rfl, fun _ _ _ _ _ => Or.inl rfl⟩,
   ⟨rfl, fun _ => Or.inl rfl⟩,
   ⟨rfl, fun _ => Or.inl rfl⟩,
   ⟨rfl, fun _ _ _ => Or.inl rfl⟩,
   ⟨rfl, fun _ _ _ => rfl⟩,
   ⟨rfl, fun _ _ => rfl⟩,
   ⟨rfl, fun _ => Or.inl rfl⟩,
   ⟨rfl, rfl⟩,
   ⟨rfl, fun _ => rfl⟩,
   ⟨rfl, fun _ _ _ => Or.inl rfl⟩,
   ⟨rfl, fun _ => Or.inr rfl⟩,
   ⟨rfl, fun _ => rfl⟩,
   ⟨rfl, fun _ _ => rfl⟩,
   ⟨rfl, fun _ _ _ _ _ => Or.inl rfl⟩,
   ⟨rfl, fun _ => Or.inl rfl⟩,
   ⟨rfl, fun _ => Or.inr rfl⟩,
   ⟨rfl, rfl⟩⟩
